import Mathlib

/-!
Verification of the WRLC Alma item-checks service (rule-evaluation pipeline and
batch-reprocessing workflow) against its natural-language specification.

The definitions below are a shallow embedding of the Python source:
pure predicate logic becomes Lean functions on an `Item` record; the Azure
table/blob/queue side effects become either explicit effect lists or explicit
state-passing on association-list models of the stores.  Each definition keeps
the name of the Python function or constant it embeds.
-/

/- ===== Configuration constants (src/wrlc_alma_item_checks/config.py) ===== -/

/-- Allow-list of provenance descriptions (config.py, `PROVENANCE`). -/
def PROVENANCE : List String :=
  [ "Property of American University",
    "Property of American University Law School",
    "Property of Catholic University of America",
    "Property of Gallaudet University",
    "Property of George Mason University",
    "Property of George Washington Himmelfarb",
    "Property of George Washington University",
    "Property of George Washington University School of Law",
    "Property of Georgetown University",
    "Property of Georgetown University School of Law",
    "Property of Howard University",
    "Property of Marymount University",
    "Property of National Security Archive",
    "Property of University of the District of Columbia",
    "Property of University of the District of Columbia Jazz Archives" ]

/-- Internal-note values that suppress the Row/Tray check (config.py, `EXCLUDED_NOTES`). -/
def EXCLUDED_NOTES : List String :=
  [ "At WRLC waiting to be processed",
    "DO NOT DELETE",
    "WD" ]

/-- Exempted physical locations (config.py, `SKIP_LOCATIONS`). -/
def SKIP_LOCATIONS : List String :=
  [ "WRLC Gemtrac Drawer",
    "WRLC Microfilm Cabinet",
    "WRLC Microfiche Cabinet",
    "Low Temperature Media Preservation Unit  # 1 @ SCF" ]

/-- Modelled from the spec: the notifier queue name is loaded from the
environment (config.py reads `NOTIFIER_QUEUE_NAME` with `_get_required_env`);
only its identity matters to the claims, so it is fixed here. -/
def NOTIFIER_QUEUE_NAME : String := "notifier-queue"

/-- Modelled from the spec: the notifier blob container name is loaded from the
environment (config.py reads `NOTIFIER_CONTAINER_NAME`). -/
def NOTIFIER_CONTAINER_NAME : String := "notifier-container"

/-- Modelled from the spec: the check name used both as the staging table name
and as its partition key.  The constant is read from the environment by a
config module revision that is not under src/; the handler itself uses the
literal check name "SCFNoRowTray" (scf_no_row_tray.py line 57). -/
def SCF_NO_ROW_TRAY_CHECK_NAME : String := "SCFNoRowTray"

/-- Modelled from the spec: prefix for the per-run results table, loaded from
the environment by a config revision not under src/. -/
def SCF_NO_ROW_TRAY_RESULTS_TABLE_NAME : String := "scfnorowtrayresults"

/-- Modelled from the spec: name of the self-continuation queue, loaded from
the environment by a config revision not under src/. -/
def SCF_NO_ROW_TRAY_PROCESSOR_QUEUE_NAME : String := "scf-no-row-tray-processor"

/- ===== String helpers (Python substring and regex semantics) ===== -/

/-- Is the first character list a prefix of the second? -/
def chPrefix : List Char → List Char → Bool
  | [], _ => true
  | _ :: _, [] => false
  | a :: as, b :: bs => a == b && chPrefix as bs

/-- Does the second character list occur as a contiguous run of the first? -/
def chInfix (hay needle : List Char) : Bool :=
  match hay with
  | [] => needle.isEmpty
  | _ :: rest => chPrefix needle hay || chInfix rest needle

/-- Python `needle in hay` substring test, on character lists. -/
def strContains (hay needle : String) : Bool :=
  chInfix hay.data needle.data

/-- Python `s.endswith(t)`: is `t` a suffix of `s`? -/
def strEndsWith (s t : String) : Bool :=
  chPrefix t.data.reverse s.data.reverse

/-- ASCII case folding of one character (the strings compared by the
eligibility filter are ASCII, so Python `str.lower()` is ASCII folding on
them). -/
def asciiLower (c : Char) : Char :=
  if 65 ≤ c.toNat ∧ c.toNat ≤ 90 then Char.ofNat (c.toNat + 32) else c

/-- Python `s.lower()` on ASCII strings. -/
def strToLower (s : String) : String :=
  ⟨s.data.map asciiLower⟩

/-- Tail of the regex search: does the character list contain an 'S'? -/
def seekS : List Char → Bool
  | [] => false
  | c :: cs => c == 'S' || seekS cs

/-- Middle of the regex search: does the character list contain an 'M'
followed (strictly later) by an 'S'? -/
def seekMS : List Char → Bool
  | [] => false
  | c :: cs => (c == 'M' && seekS cs) || seekMS cs

/-- Python `re.search(r"^R.*M.*S", s) is not None`: the string starts with
'R' and, before any newline (Python `.` does not match a newline), later
contains an 'M' and after it an 'S'. -/
def matchRowTrayPattern (s : String) : Bool :=
  match s.data with
  | [] => false
  | c :: cs => c == 'R' && seekMS (cs.takeWhile (fun ch => ch != '\n'))

/-- `any(loc in field_value for loc in SKIP_LOCATIONS)`
(scf_no_row_tray.py line 159). -/
def containsSkipLocation (s : String) : Bool :=
  SKIP_LOCATIONS.any (fun loc => strContains s loc)

/- ===== Item data model (wrlc_alma_api_client.models.item.Item) ===== -/

/-- Bibliographic fields used by the handlers. -/
structure BibData where
  title : Option String
  author : Option String
deriving DecidableEq, Repr

/-- A location object; the handlers only read its `value`. -/
structure AlmaLocation where
  value : String
deriving DecidableEq, Repr

/-- A temporary-location object whose `value` may be unset. -/
structure TempLocation where
  value : Option String
deriving DecidableEq, Repr

/-- Holding-level fields used by the handlers. -/
structure HoldingData where
  temp_location : TempLocation
deriving DecidableEq, Repr

/-- A provenance object; the eligibility filter reads its `desc`. -/
structure ProvenanceField where
  desc : String
deriving DecidableEq, Repr

/-- Item-level fields used by the handlers. -/
structure AlmaItemData where
  barcode : String
  location : AlmaLocation
  provenance : Option ProvenanceField
  alternative_call_number : Option String
  internal_note_1 : Option String
deriving DecidableEq, Repr

/-- The item snapshot fetched from the upstream platform. -/
structure Item where
  bib_data : BibData
  holding_data : HoldingData
  item_data : AlmaItemData
deriving DecidableEq, Repr

/- ===== Row/Tray check (handlers/scf_no_row_tray.py) ===== -/

/-- `SCFNoRowTray.no_row_tray_data`: true iff the alternative call number is
not set (scf_no_row_tray.py lines 116 to 130). -/
def SCFNoRowTray.no_row_tray_data (item : Item) : Bool :=
  item.item_data.alternative_call_number.isNone

/-- One pass of the field loop in `SCFNoRowTray.wrong_row_tray_data`: a set
field fails when it is not in a skipped location and does not match the
pattern (scf_no_row_tray.py lines 153 to 169). -/
def SCFNoRowTray.fieldFails (value : Option String) : Bool :=
  match value with
  | none => false
  | some v => !(containsSkipLocation v) && !(matchRowTrayPattern v)

/-- `SCFNoRowTray.wrong_row_tray_data`: some set, non-skipped field among the
alternative call number and internal note 1 fails to match the pattern
(scf_no_row_tray.py lines 132 to 172). -/
def SCFNoRowTray.wrong_row_tray_data (item : Item) : Bool :=
  SCFNoRowTray.fieldFails item.item_data.alternative_call_number ||
  SCFNoRowTray.fieldFails item.item_data.internal_note_1

/-- `self.item.item_data.internal_note_1 in EXCLUDED_NOTES`
(scf_no_row_tray.py line 41); Python `None in [...]` is false. -/
def SCFNoRowTray.noteExcluded (item : Item) : Bool :=
  match item.item_data.internal_note_1 with
  | none => false
  | some v => EXCLUDED_NOTES.contains v

/-- `SCFNoRowTray.should_process` (scf_no_row_tray.py lines 32 to 46). -/
def SCFNoRowTray.should_process (item : Item) : Bool :=
  if SCFNoRowTray.no_row_tray_data item || SCFNoRowTray.wrong_row_tray_data item then
    if SCFNoRowTray.noteExcluded item then false else true
  else false

/-- The Row/Tray predicate as the specification words it, for comparison with
`SCFNoRowTray.should_process`: true iff no populated field among the
alternative call number and internal note 1 that is outside the
exempt-location list matches the pattern, and the internal note is not an
excluded value. -/
def specRowTrayPredicate (item : Item) : Bool :=
  let fieldMatches : Option String → Bool := fun value =>
    match value with
    | none => false
    | some v => !(containsSkipLocation v) && matchRowTrayPattern v
  !(fieldMatches item.item_data.alternative_call_number ||
    fieldMatches item.item_data.internal_note_1) &&
  !(SCFNoRowTray.noteExcluded item)

/-- An item with no alternative call number whose internal note matches the
pattern: the code stages it, the spec says it passes validation. -/
def rowTrayDisagreeItem : Item :=
  { bib_data := { title := none, author := none },
    holding_data := { temp_location := { value := none } },
    item_data :=
      { barcode := "31197000123456",
        location := { value := "stacks" },
        provenance := some { desc := "Property of Howard University" },
        alternative_call_number := none,
        internal_note_1 := some "R1M2S" } }

/- ===== Configuration entity (models/check.py) ===== -/

/-- A row of the `checks` table; `api_key` and the mail fields are nullable. -/
structure Check where
  id : Nat
  name : String
  api_key : Option String
  report_path : Option String
  email_subject : Option String
  email_body : Option String
deriving DecidableEq, Repr

/- ===== Side effects of the handlers and entry points ===== -/

/-- A table entity, modelling the Python dict passed to the Azure table client:
an association list of string fields. -/
structure TableEntity where
  fields : List (String × String)
deriving DecidableEq, Repr

/-- Dictionary lookup on an entity (first binding wins, as in a Python dict
the keys are unique; the model reads the first). -/
def TableEntity.get (e : TableEntity) (k : String) : Option String :=
  (e.fields.find? (fun p => p.1 == k)).map (fun p => p.2)

/-- The (PartitionKey, RowKey) pair of an entity, when both fields exist. -/
def entityKey (e : TableEntity) : Option (String × String) :=
  match e.get "PartitionKey", e.get "RowKey" with
  | some p, some r => some (p, r)
  | _, _ => none

/-- One externally visible, durable action performed by a handler. -/
inductive Effect where
  | upsertEntity (table : String) (entity : TableEntity)
  | updateItem (item : Item)
  | sendQueueMessage (queue : String)
  | uploadBlob (container : String) (blob : String)
  | createTable (table : String)
  | deleteTable (table : String)
  | deleteBlob (container : String) (blob : String)
  | deleteEntitiesBatch (table : String) (entities : List TableEntity)
deriving DecidableEq, Repr

/- ===== Barcode-suffix check (handlers/scf_no_x.py) ===== -/

/-- `SCFNoX.should_process` (scf_no_x.py lines 32 to 43): false iff the
barcode already ends in the marker character. -/
def SCFNoX.should_process (item : Item) : Bool :=
  !(strEndsWith item.item_data.barcode "X")

/-- `SCFNoX.process` (scf_no_x.py lines 45 to 113): append the marker to the
barcode, push the corrected record upstream, then send an immediate
notification request to the notifier queue. -/
def SCFNoX.process (item : Item) : List Effect :=
  let corrected : Item :=
    { item with item_data := { item.item_data with barcode := item.item_data.barcode ++ "X" } }
  [ Effect.updateItem corrected,
    Effect.sendQueueMessage NOTIFIER_QUEUE_NAME ]

/- ===== Staging (SCFNoRowTray.stage, called from bp_scf.py line 80) ===== -/

/-- Modelled from the spec: `SCFNoRowTray.stage` is invoked by the webhook
(bp_scf.py line 80) but its definition is not under src/.  Per the spec, it
upserts a StagedItemRecord keyed by (check-name, barcode) into the durable
staging table for the check. -/
def SCFNoRowTray.stage (item : Item) : List Effect :=
  [ Effect.upsertEntity SCF_NO_ROW_TRAY_CHECK_NAME
      { fields := [ ("PartitionKey", SCF_NO_ROW_TRAY_CHECK_NAME),
                    ("RowKey", item.item_data.barcode) ] } ]

/- ===== Webhook item-checks section (bp_scf.py lines 66 to 87) ===== -/

/-- The per-item checks the SCF webhook runs once an eligible item is in hand
(bp_scf.py lines 72 to 87).  `scf_no_x.should_process()` is called on line 74
but its result is discarded and `SCFNoX.process` is never invoked, so the
barcode-suffix check contributes no effect; the Row/Tray check stages the item
exactly when its predicate holds; the withdrawn check is commented out. -/
def scfWebhookItemChecks (item : Item) : List Effect :=
  (if SCFNoRowTray.should_process item then SCFNoRowTray.stage item else [])

/- ===== Eligibility filter (handlers/scf_shared.py) ===== -/

/-- Outcome of one `alma_client.items.get_item_by_barcode` call: a successful
fetch, a network failure (`requests.RequestException`), or a definitive API
error such as 404 not found (`AlmaApiError`). -/
inductive FetchResult where
  | ok (item : Item)
  | networkError
  | apiError
deriving DecidableEq, Repr

/-- `max_retries` (scf_shared.py line 52). -/
def max_retries : Nat := 3

/-- The retry loop of `SCFShared.should_process` (scf_shared.py lines 54 to
71), with the fetch behaviour abstracted as an oracle indexed by the attempt
number.  Returns the fetched item (if any), the number of fetch attempts
actually made, and the list of backoff sleeps (in seconds) performed, in
order.  The fuel argument mirrors `range(max_retries)` and always suffices. -/
def getItemRetryLoop (fetch : Nat → FetchResult) : Nat → Nat → Option Item × Nat × List Nat
  | 0, attempt => (none, attempt, [])
  | fuel + 1, attempt =>
    match fetch attempt with
    | .ok item => (some item, attempt + 1, [])
    | .apiError => (none, attempt + 1, [])
    | .networkError =>
      if attempt < max_retries - 1 then
        let rest := getItemRetryLoop fetch fuel (attempt + 1)
        (rest.1, rest.2.1, 2 * (attempt + 1) :: rest.2.2)
      else (none, attempt + 1, [])

/-- The item fetch of `SCFShared.should_process`, starting at attempt 0 with
fuel for `max_retries` iterations. -/
def getItemWithRetries (fetch : Nat → FetchResult) : Option Item × Nat × List Nat :=
  getItemRetryLoop fetch max_retries 0

/-- The temporary-location gate (scf_shared.py lines 78 to 81): the value is
set and its lowercase form contains the discard marker. -/
def tempLocationDiscard (item : Item) : Bool :=
  match item.holding_data.temp_location.value with
  | none => false
  | some v => strContains (strToLower v) "discard"

/-- The location gate (scf_shared.py line 85): the lowercase location value
contains the discard marker. -/
def locationDiscard (item : Item) : Bool :=
  strContains (strToLower item.item_data.location.value) "discard"

/-- `not item_data.item_data.provenance or item_data.item_data.provenance.desc
not in PROVENANCE` (scf_shared.py line 89). -/
def provenanceRejected (item : Item) : Bool :=
  match item.item_data.provenance with
  | none => true
  | some p => !(PROVENANCE.contains p.desc)

/-- `SCFShared.should_process` (scf_shared.py lines 30 to 93): the eligibility
filter.  The check configuration and the upstream fetch behaviour are passed
explicitly; a missing configuration or empty API key aborts without any fetch
(Python `not check.api_key` is true for both a null and an empty key). -/
def SCFShared.should_process (check : Option Check) (fetch : Nat → FetchResult) : Option Item :=
  match check with
  | none => none
  | some c =>
    match c.api_key with
    | none => none
    | some key =>
      if key = "" then none
      else
        match (getItemWithRetries fetch).1 with
        | none => none
        | some item =>
          if tempLocationDiscard item then none
          else if locationDiscard item then none
          else if provenanceRejected item then none
          else some item

/- ===== Storage operations (services/storage_service.py) ===== -/

/-- The durable table store: an association list from table name to the list
of entities the table holds. -/
structure TableStorage where
  tables : List (String × List TableEntity)
deriving DecidableEq, Repr

/-- The entities of a table, if the table exists. -/
def TableStorage.getTable (s : TableStorage) (name : String) : Option (List TableEntity) :=
  (s.tables.find? (fun p => p.1 == name)).map (fun p => p.2)

/-- Replace (or create) a table wholesale. -/
def TableStorage.setTable (s : TableStorage) (name : String) (t : List TableEntity) : TableStorage :=
  ⟨(name, t) :: s.tables.filter (fun p => !(p.1 == name))⟩

/-- Azure Tables upsert with `UpdateMode.REPLACE`: the entity with the same
(PartitionKey, RowKey) is replaced wholesale; any other entity is kept. -/
def tableUpsertReplace (t : List TableEntity) (key : String × String) (e : TableEntity) : List TableEntity :=
  e :: t.filter (fun x => !(entityKey x == some key))

/-- `StorageService.upsert_entity` (storage_service.py lines 462 to 504):
reject an empty table name or an entity without both keys, create the table
if it does not exist, then upsert-replace. -/
def StorageService.upsert_entity (storage : TableStorage) (table_name : String)
    (entity : TableEntity) : Except String TableStorage :=
  if table_name = "" then .error "Table name cannot be empty."
  else
    match entityKey entity with
    | none => .error "Entity must contain PartitionKey and RowKey."
    | some key =>
      .ok (storage.setTable table_name
        (tableUpsertReplace ((storage.getTable table_name).getD []) key entity))

/-- Modelled from the spec: `StorageService.delete_entities_batch` is called
at finalization (bp_scf_no_row_tray.py line 202) but its definition is not
under src/.  Per the spec it deletes, in bulk, the staged records
corresponding to every entity of the given original list; a delete of an
already absent key succeeds, and entities with other keys are untouched. -/
def StorageService.delete_entities_batch (t : List TableEntity)
    (originals : List TableEntity) : List TableEntity :=
  t.filter (fun e => !(originals.any (fun o => entityKey o == entityKey e)))

/- ===== Batch worker (blueprints/timers/bp_scf_no_row_tray.py) ===== -/

/-- `batch_size` (bp_scf_no_row_tray.py line 145). -/
def batch_size : Nat := 50

/-- `all_barcodes[offset:offset + batch_size]` (bp_scf_no_row_tray.py
line 146): the chunk a worker invocation processes. -/
def workerChunk (all_barcodes : List String) (offset : Nat) : List String :=
  (all_barcodes.drop offset).take batch_size

/-- `new_offset = offset + len(barcodes_for_this_batch)`
(bp_scf_no_row_tray.py line 147). -/
def workerNewOffset (all_barcodes : List String) (offset : Nat) : Nat :=
  offset + (workerChunk all_barcodes offset).length

/-- `new_offset < len(all_barcodes)` (bp_scf_no_row_tray.py line 171):
whether the invocation re-queues a continuation message (true) or runs the
finalization branch (false). -/
def workerContinues (all_barcodes : List String) (offset : Nat) : Bool :=
  workerNewOffset all_barcodes offset < all_barcodes.length

/-- The chunks processed by the successive worker invocations of one run,
starting from the given offset: each invocation processes its chunk and, while
`new_offset < len(all_barcodes)`, re-queues a message carrying `new_offset`;
the last invocation finalizes instead. -/
def workerRunChunks (all_barcodes : List String) (offset : Nat) : List (List String) :=
  let chunk := workerChunk all_barcodes offset
  if h : workerNewOffset all_barcodes offset < all_barcodes.length then
    chunk :: workerRunChunks all_barcodes (workerNewOffset all_barcodes offset)
  else [chunk]
termination_by all_barcodes.length - offset
decreasing_by
  have heq : workerNewOffset all_barcodes offset =
      offset + (workerChunk all_barcodes offset).length := rfl
  have hoff : offset < all_barcodes.length := by omega
  have hpos : 0 < (workerChunk all_barcodes offset).length := by
    simp only [workerChunk, List.length_take, List.length_drop]
    exact lt_inf_iff.mpr ⟨by norm_num [batch_size], by omega⟩
  omega

/-- The per-barcode body of the worker loop (bp_scf_no_row_tray.py lines 155
to 168): run the eligibility filter, re-run the Row/Tray predicate on the
fresh item, and if it still fails upsert a result entity keyed by
(run_id, barcode) holding the serialized item. -/
def workerProcessBarcode (check : Option Check) (fetch : Nat → FetchResult)
    (run_id results_table_name barcode : String) : List Effect :=
  match SCFShared.should_process check fetch with
  | none => []
  | some item =>
    if SCFNoRowTray.should_process item then
      [ Effect.upsertEntity results_table_name
          { fields := [ ("PartitionKey", run_id), ("RowKey", barcode) ] } ]
    else []

/- ===== Batch coordinator (DailyScfReportTimer, same blueprint) ===== -/

/-- The run id with every dash removed (bp_scf_no_row_tray.py line 67). -/
def stripDashes (s : String) : String :=
  ⟨s.data.filter (fun c => c != '-')⟩

/-- `DailyScfReportTimer` (bp_scf_no_row_tray.py lines 32 to 96): read the
staged entities of the check partition; when none exist, exit without any
effect; otherwise upload the original-entities blob, create the per-run
results table, upload the barcode worklist blob and queue the initial
continuation message.  The freshly generated run identifier is passed in,
since `uuid.uuid4()` is nondeterministic; it is only generated on the
non-empty path in the source (line 55). -/
def DailyScfReportTimer (staged_items : List TableEntity) (run_id : String) : List Effect :=
  if staged_items.isEmpty then []
  else
    [ Effect.uploadBlob NOTIFIER_CONTAINER_NAME (run_id ++ "-original-entities.json"),
      Effect.createTable (SCF_NO_ROW_TRAY_RESULTS_TABLE_NAME ++ stripDashes run_id),
      Effect.uploadBlob NOTIFIER_CONTAINER_NAME (run_id ++ "-barcodes-to-process.json"),
      Effect.sendQueueMessage SCF_NO_ROW_TRAY_PROCESSOR_QUEUE_NAME ]

/- ===== Webhook transport (utils/security.py and bp_scf.py) ===== -/

/-- Environment of the webhook endpoint: the local-development flag, the
pre-shared secret, and the base64-encoded HMAC-SHA256 primitive abstracted as
a function of the secret and the raw request body. -/
structure WebhookEnv where
  is_local_dev : Bool
  secret : String
  hmacSignature : String → String → String

/-- Outcome of `req.get_json()` plus barcode extraction (bp_scf.py lines 48
to 64), abstracting the JSON library: a parsed body carrying the barcode
found at item.item_data.barcode (if any), an invalid-JSON failure
(`ValueError`), or any other exception. -/
inductive ParseOutcome where
  | parsed (barcode : Option String)
  | invalidJson
  | otherError
deriving DecidableEq, Repr

/-- An inbound HTTP request as the webhook sees it. -/
structure WebhookRequest where
  method : String
  challengeParam : Option String
  body : String
  signatureHeader : Option String
  parse : ParseOutcome

/-- An HTTP response: status code and body text. -/
structure WebhookResponse where
  status : Nat
  text : String
deriving DecidableEq, Repr

/-- `validate_webhook_signature` (utils/security.py lines 8 to 42): false on
a missing secret or a missing/empty header, otherwise a constant-time
comparison of the received signature against the base64 HMAC-SHA256 of the
raw body under the shared secret. -/
def validate_webhook_signature (env : WebhookEnv) (body : String)
    (received : Option String) : Bool :=
  if env.secret = "" then false
  else
    match received with
    | none => false
    | some sig => if sig = "" then false else env.hmacSignature env.secret body == sig

/-- `ScfWebhook` (blueprints/webhooks/bp_scf.py lines 18 to 88).  Non-POST
requests get the challenge echo or a hello body; for POST, the signature is
validated unless `AZURE_FUNCTIONS_ENVIRONMENT` is Development, the body is
parsed, and the item checks run on the item fetched through the eligibility
filter; the acknowledgement is 200 whatever the checks did. -/
def ScfWebhook (env : WebhookEnv) (req : WebhookRequest) (check : Option Check)
    (fetch : Nat → FetchResult) : WebhookResponse × List Effect :=
  if req.method ≠ "POST" then
    match req.challengeParam with
    | some c => (⟨200, "challenge " ++ c⟩, [])
    | none => (⟨200, "Hello World"⟩, [])
  else if !env.is_local_dev &&
          !(validate_webhook_signature env req.body req.signatureHeader) then
    (⟨403, "Invalid signature"⟩, [])
  else
    match req.parse with
    | .invalidJson => (⟨400, "Invalid JSON format"⟩, [])
    | .otherError => (⟨500, "Error processing request"⟩, [])
    | .parsed none => (⟨400, "Invalid payload: Barcode is missing."⟩, [])
    | .parsed (some barcode) =>
      if barcode = "" then (⟨400, "Invalid payload: Barcode is missing."⟩, [])
      else
        match SCFShared.should_process check fetch with
        | some item => (⟨200, "Webhook received"⟩, scfWebhookItemChecks item)
        | none => (⟨200, "Webhook received"⟩, [])

/- ===== Concrete inputs used by counterexamples and witnesses ===== -/

/-- An eligible item with no alternative call number and no internal note:
the Row/Tray predicate flags it and the webhook stages it. -/
def stagedWitnessItem : Item :=
  { bib_data := { title := some "A Title", author := none },
    holding_data := { temp_location := { value := none } },
    item_data :=
      { barcode := "31197000111111",
        location := { value := "stacks" },
        provenance := some { desc := "Property of Howard University" },
        alternative_call_number := none,
        internal_note_1 := none } }

/-- An eligible item whose barcode lacks the trailing marker and whose
row/tray data is valid: the barcode-suffix predicate holds, yet the webhook
invokes no action for it. -/
def noXBugItem : Item :=
  { bib_data := { title := some "A Title", author := some "An Author" },
    holding_data := { temp_location := { value := none } },
    item_data :=
      { barcode := "31197000999999",
        location := { value := "stacks" },
        provenance := some { desc := "Property of Howard University" },
        alternative_call_number := some "R12M34S",
        internal_note_1 := none } }

/-- The corrected record `SCFNoX.process` would push upstream for
`noXBugItem`: the same item with the marker appended to the barcode. -/
def noXCorrectedItem : Item :=
  { noXBugItem with
    item_data := { noXBugItem.item_data with barcode := noXBugItem.item_data.barcode ++ "X" } }

/-- A staged entity for barcode B1 as the coordinator snapshots it. -/
def drainOriginalEntity : TableEntity :=
  { fields := [ ("PartitionKey", "SCFNoRowTray"), ("RowKey", "B1") ] }

/-- The live staging row for barcode B1 at finalization time. -/
def drainStagedEntity : TableEntity :=
  { fields := [ ("PartitionKey", "SCFNoRowTray"), ("RowKey", "B1") ] }

/-- A staging row for barcode B2, created during the run and absent from the
original snapshot. -/
def drainKeptEntity : TableEntity :=
  { fields := [ ("PartitionKey", "SCFNoRowTray"), ("RowKey", "B2") ] }

/-- First staging write for barcode B1. -/
def upsertFirstEntity : TableEntity :=
  { fields := [ ("PartitionKey", "SCFNoRowTray"), ("RowKey", "B1"), ("Version", "first") ] }

/-- Second staging write for barcode B1, with a different payload. -/
def upsertSecondEntity : TableEntity :=
  { fields := [ ("PartitionKey", "SCFNoRowTray"), ("RowKey", "B1"), ("Version", "second") ] }

/-- A production webhook environment whose HMAC primitive is a fixed oracle. -/
def prodWebhookEnv : WebhookEnv :=
  { is_local_dev := false, secret := "shared-secret", hmacSignature := fun _ _ => "SIG" }

/-- A local-development webhook environment. -/
def devWebhookEnv : WebhookEnv :=
  { is_local_dev := true, secret := "shared-secret", hmacSignature := fun _ _ => "SIG" }

/-- A well-formed POST request carrying a matching signature and a barcode. -/
def okWebhookRequest : WebhookRequest :=
  { method := "POST", challengeParam := none, body := "payload",
    signatureHeader := some "SIG", parse := ParseOutcome.parsed (some "31197000111111") }

/- ===== Shared helper lemmas ===== -/

theorem SCFNoRowTray.should_process_eq (item : Item) :
    SCFNoRowTray.should_process item =
      ((SCFNoRowTray.no_row_tray_data item || SCFNoRowTray.wrong_row_tray_data item) &&
        !(SCFNoRowTray.noteExcluded item)) := by
  unfold SCFNoRowTray.should_process
  cases h1 : (SCFNoRowTray.no_row_tray_data item || SCFNoRowTray.wrong_row_tray_data item) <;>
    cases h2 : SCFNoRowTray.noteExcluded item <;> simp [h1, h2]

theorem SCFNoRowTray.fieldFails_eq_true (v : Option String) :
    SCFNoRowTray.fieldFails v = true ↔
      ∃ s, v = some s ∧ containsSkipLocation s = false ∧ matchRowTrayPattern s = false := by
  cases v <;> simp [SCFNoRowTray.fieldFails]

theorem SCFNoRowTray.noteExcluded_eq_false (item : Item) :
    SCFNoRowTray.noteExcluded item = false ↔
      ∀ s, item.item_data.internal_note_1 = some s → s ∉ EXCLUDED_NOTES := by
  unfold SCFNoRowTray.noteExcluded
  cases h : item.item_data.internal_note_1 <;> simp [List.elem_iff]

/- ===== Claim theorems ===== -/

/-- C1 (amended): `SCFNoRowTray.should_process` is true iff (the alternative
call number is unset, or some populated field among the alternative call
number and internal note 1 that is outside the exempt-location list fails to
match the pattern), and the internal note is not an excluded value.  In
particular an item whose alternative call number is unset but whose populated
internal note matches the pattern is still flagged. -/
theorem rowTray_should_process_characterization (item : Item) :
    SCFNoRowTray.should_process item = true ↔
      ((item.item_data.alternative_call_number = none ∨
        (∃ s, item.item_data.alternative_call_number = some s ∧
              containsSkipLocation s = false ∧ matchRowTrayPattern s = false) ∨
        (∃ s, item.item_data.internal_note_1 = some s ∧
              containsSkipLocation s = false ∧ matchRowTrayPattern s = false)) ∧
       (∀ s, item.item_data.internal_note_1 = some s → s ∉ EXCLUDED_NOTES)) := by
  rw [SCFNoRowTray.should_process_eq]
  simp only [Bool.and_eq_true, Bool.or_eq_true, Bool.not_eq_true',
    SCFNoRowTray.no_row_tray_data, SCFNoRowTray.wrong_row_tray_data,
    SCFNoRowTray.fieldFails_eq_true, SCFNoRowTray.noteExcluded_eq_false,
    Option.isNone_iff_eq_none, or_assoc]

/-- C1 counterexample: for an item whose alternative call number is unset and
whose internal note matches the pattern, the code flags the item (predicate
true) while the predicate as the specification words it is false, refuting
the claimed equivalence. -/
theorem rowTray_spec_predicate_disagrees :
    SCFNoRowTray.should_process rowTrayDisagreeItem = true ∧
    specRowTrayPredicate rowTrayDisagreeItem = false :=
  ⟨by decide, by decide⟩

/-- C2: when the Row/Tray predicate flags an item, the webhook flow stages it
by upserting a StagedItemRecord keyed by (check-name, barcode) and neither
updates the item upstream nor sends any immediate notification. -/
theorem scf_webhook_stages_failing_item (item : Item)
    (h : SCFNoRowTray.should_process item = true) :
    scfWebhookItemChecks item =
      [ Effect.upsertEntity SCF_NO_ROW_TRAY_CHECK_NAME
          { fields := [ ("PartitionKey", SCF_NO_ROW_TRAY_CHECK_NAME),
                        ("RowKey", item.item_data.barcode) ] } ] ∧
    (∀ it, Effect.updateItem it ∉ scfWebhookItemChecks item) ∧
    (∀ q, Effect.sendQueueMessage q ∉ scfWebhookItemChecks item) := by
  refine ⟨?_, ?_, ?_⟩ <;> simp [scfWebhookItemChecks, SCFNoRowTray.stage, h]

/-- C2 witness at a concrete flagged item. -/
theorem scf_webhook_stages_failing_item_witness :
    SCFNoRowTray.should_process stagedWitnessItem = true ∧
    scfWebhookItemChecks stagedWitnessItem =
      [ Effect.upsertEntity SCF_NO_ROW_TRAY_CHECK_NAME
          { fields := [ ("PartitionKey", SCF_NO_ROW_TRAY_CHECK_NAME),
                        ("RowKey", "31197000111111") ] } ] :=
  ⟨by decide, (scf_webhook_stages_failing_item stagedWitnessItem (by decide)).1⟩

/-- C3: the claim says the webhook invokes the barcode-suffix action exactly
when its predicate is true; at this input the predicate is true, yet the
webhook produces no update and no notification, because bp_scf.py line 74
calls `should_process` and discards the result without ever calling
`SCFNoX.process` (whose effects are shown last). -/
theorem scf_webhook_nox_action_never_invoked :
    SCFNoX.should_process noXBugItem = true ∧
    scfWebhookItemChecks noXBugItem = [] ∧
    SCFNoX.process noXBugItem =
      [ Effect.updateItem noXCorrectedItem,
        Effect.sendQueueMessage NOTIFIER_QUEUE_NAME ] :=
  ⟨by decide, by decide, by decide⟩

/-- C6: the eligibility fetch makes at most `max_retries` attempts; when every
attempt fails with a network error it makes exactly 3 attempts with backoff
sleeps of 2 then 4 seconds and yields no item (so the filter reports not
eligible whatever the configuration); a definitive API error on the first
attempt yields no item after exactly 1 attempt and no sleep. -/
theorem scf_shared_retry_policy (fetch : Nat → FetchResult) :
    ((getItemWithRetries fetch).2.1 ≤ max_retries) ∧
    ((∀ k, fetch k = FetchResult.networkError) →
       getItemWithRetries fetch = (none, 3, [2, 4]) ∧
       ∀ check, SCFShared.should_process check fetch = none) ∧
    (fetch 0 = FetchResult.apiError →
       getItemWithRetries fetch = (none, 1, [])) := by
  refine ⟨?_, ?_, ?_⟩
  · rcases h0 : fetch 0 <;> rcases h1 : fetch 1 <;> rcases h2 : fetch 2 <;>
      simp [getItemWithRetries, getItemRetryLoop, max_retries, h0, h1, h2]
  · intro hnet
    have hfetch : getItemWithRetries fetch = (none, 3, [2, 4]) := by
      simp [getItemWithRetries, getItemRetryLoop, max_retries, hnet 0, hnet 1, hnet 2]
    refine ⟨hfetch, ?_⟩
    intro check
    rcases check with _ | c
    · rfl
    · rcases hk : c.api_key with _ | key
      · simp [SCFShared.should_process, hk]
      · by_cases hkey : key = "" <;> simp [SCFShared.should_process, hk, hkey, hfetch]
  · intro hapi
    simp [getItemWithRetries, getItemRetryLoop, max_retries, hapi]

/-- C6 witness: concrete always-failing and definitively-failing oracles. -/
theorem scf_shared_retry_policy_witness :
    getItemWithRetries (fun _ => FetchResult.networkError) = (none, 3, [2, 4]) ∧
    getItemWithRetries (fun _ => FetchResult.apiError) = (none, 1, []) :=
  ⟨((scf_shared_retry_policy (fun _ => FetchResult.networkError)).2.1 (fun _ => rfl)).1,
   (scf_shared_retry_policy (fun _ => FetchResult.apiError)).2.2 rfl⟩

/-- C8: when no items are staged for the check, the scheduled coordinator
exits with no effect at all: no blob upload, no results-table creation and no
continuation message, leaving all durable state unchanged. -/
theorem daily_timer_empty_staging_no_effects (staged : List TableEntity) (run_id : String)
    (h : staged = []) :
    DailyScfReportTimer staged run_id = [] ∧
    (∀ c b, Effect.uploadBlob c b ∉ DailyScfReportTimer staged run_id) ∧
    (∀ t, Effect.createTable t ∉ DailyScfReportTimer staged run_id) ∧
    (∀ q, Effect.sendQueueMessage q ∉ DailyScfReportTimer staged run_id) := by
  subst h
  refine ⟨rfl, ?_, ?_, ?_⟩ <;> intros <;> simp [DailyScfReportTimer]

/-- C8 witness at the empty staging table. -/
theorem daily_timer_empty_staging_no_effects_witness :
    DailyScfReportTimer [] "a-run-id" = [] :=
  (daily_timer_empty_staging_no_effects [] "a-run-id" rfl).1

theorem workerChunk_length_facts (w : List String) (offset : Nat) :
    (workerChunk w offset).length ≤ batch_size ∧
    (workerChunk w offset).length ≤ w.length - offset ∧
    ((workerChunk w offset).length = batch_size ∨
     (workerChunk w offset).length = w.length - offset) := by
  have h : (workerChunk w offset).length = min batch_size (w.length - offset) := by
    simp [workerChunk]
  exact ⟨h ▸ min_le_left _ _, h ▸ min_le_right _ _, by rw [h]; exact min_choice _ _⟩

theorem chunk_append_drop (B : Nat) (l : List String) :
    l.take B ++ l.drop (l.take B).length = l := by
  rcases le_total B l.length with hle | hle
  · have hlen : (l.take B).length = B := by
      simp [List.length_take, hle]
    rw [hlen, List.take_append_drop]
  · have htake : l.take B = l := List.take_of_length_le hle
    rw [htake, List.drop_length, List.append_nil]

theorem workerRunChunks_join_aux (w : List String) :
    ∀ fuel offset, w.length - offset ≤ fuel →
      (workerRunChunks w offset).flatten = w.drop offset := by
  intro fuel
  induction fuel with
  | zero =>
    intro offset hle
    have hdrop : w.drop offset = [] := List.drop_eq_nil_of_le (by omega)
    have hchunk : workerChunk w offset = [] := by
      unfold workerChunk
      rw [hdrop, List.take_nil]
    rw [workerRunChunks, dif_neg]
    · simp [hchunk, hdrop]
    · have heq : workerNewOffset w offset = offset + (workerChunk w offset).length := rfl
      rw [hchunk] at heq
      simp only [List.length_nil] at heq
      omega
  | succ n ih =>
    intro offset hle
    rw [workerRunChunks]
    by_cases h : workerNewOffset w offset < w.length
    · rw [dif_pos h]
      have heq : workerNewOffset w offset = offset + (workerChunk w offset).length := rfl
      have hcf := workerChunk_length_facts w offset
      have hb : batch_size = 50 := rfl
      have hpos : 0 < (workerChunk w offset).length := by
        rcases hcf.2.2 with hc | hc <;> omega
      have hrec := ih (workerNewOffset w offset) (by omega)
      rw [List.flatten_cons, hrec, heq]
      unfold workerChunk
      rw [← List.drop_drop]
      exact chunk_append_drop batch_size (w.drop offset)
    · rw [dif_neg h]
      have heq : workerNewOffset w offset = offset + (workerChunk w offset).length := rfl
      have hcf := workerChunk_length_facts w offset
      have hfull : (workerChunk w offset).length = w.length - offset := by omega
      have hchunk : workerChunk w offset = w.drop offset := by
        unfold workerChunk
        apply List.take_of_length_le
        rw [List.length_drop]
        unfold workerChunk at hfull
        omega
      simp [hchunk]

theorem workerRunChunks_length_aux (w : List String) :
    ∀ fuel offset, w.length - offset ≤ fuel → offset < w.length →
      (workerRunChunks w offset).length =
        (w.length - offset + (batch_size - 1)) / batch_size := by
  intro fuel
  induction fuel with
  | zero => intro offset hle hlt; omega
  | succ n ih =>
    intro offset hle hlt
    have hcf := workerChunk_length_facts w offset
    have heq : workerNewOffset w offset = offset + (workerChunk w offset).length := rfl
    have hb : batch_size = 50 := rfl
    rw [workerRunChunks]
    by_cases h : workerNewOffset w offset < w.length
    · rw [dif_pos h]
      have hchunkfull : (workerChunk w offset).length = batch_size := by
        rcases hcf.2.2 with hc | hc <;> omega
      have hrec := ih (workerNewOffset w offset) (by omega) (by omega)
      rw [List.length_cons, hrec, heq, hchunkfull, hb]
      have hgt : 50 < w.length - offset := by omega
      omega
    · rw [dif_neg h]
      have hsmall : w.length - offset ≤ batch_size := by omega
      rw [hb] at hsmall
      simp only [List.length_cons, List.length_nil, hb]
      omega

/-- C4: a full worker run over a non-empty worklist performs exactly
ceil(W / batch_size) invocations, the concatenation of the processed chunks
is exactly the worklist (so no barcode is processed twice), each invocation
processes the slice [offset, offset + batch_size) and re-queues a
continuation exactly when the new offset is still short of the worklist. -/
theorem worker_run_batching (w : List String) (hw : 1 ≤ w.length) :
    (workerRunChunks w 0).length = (w.length + (batch_size - 1)) / batch_size ∧
    (workerRunChunks w 0).flatten = w ∧
    (∀ offset, workerChunk w offset = (w.drop offset).take batch_size ∧
      workerNewOffset w offset = offset + (workerChunk w offset).length ∧
      (workerContinues w offset = true ↔ workerNewOffset w offset < w.length)) := by
  refine ⟨?_, ?_, ?_⟩
  · have := workerRunChunks_length_aux w w.length 0 (by omega) (by omega)
    simpa using this
  · have := workerRunChunks_join_aux w w.length 0 (by omega)
    simpa using this
  · intro offset
    exact ⟨rfl, rfl, by simp [workerContinues]⟩

/-- C4 witness: a worklist of 120 barcodes is processed in exactly 3 chunks
whose concatenation is the worklist. -/
theorem worker_run_batching_witness :
    (workerRunChunks (List.replicate 120 "31197000111111") 0).length = 3 ∧
    (workerRunChunks (List.replicate 120 "31197000111111") 0).flatten =
      List.replicate 120 "31197000111111" := by
  have h := worker_run_batching (List.replicate 120 "31197000111111") (by simp)
  refine ⟨?_, h.2.1⟩
  rw [h.1]
  simp [batch_size]

/-- C5: after the finalization bulk delete, the staging table holds no entity
keyed by (check, b) for any barcode b of the original worklist snapshot (not
only the still-failing ones), while every staging entity whose key matches no
snapshot entity, such as one staged for another barcode during the run, is
untouched. -/
theorem finalization_drains_worklist (staging originals : List TableEntity) (check : String)
    (hpk : ∀ o ∈ originals, o.get "PartitionKey" = some check) :
    (∀ b, (∃ o ∈ originals, o.get "RowKey" = some b) →
       ∀ e ∈ StorageService.delete_entities_batch staging originals,
         entityKey e ≠ some (check, b)) ∧
    (∀ e ∈ staging, (∀ o ∈ originals, entityKey o ≠ entityKey e) →
       e ∈ StorageService.delete_entities_batch staging originals) := by
  constructor
  · rintro b ⟨o, ho, hrk⟩ e he hkey
    unfold StorageService.delete_entities_batch at he
    rw [List.mem_filter] at he
    have hany := he.2
    rw [Bool.not_eq_true', List.any_eq_false] at hany
    have hbeq := hany o ho
    have hko : entityKey o = some (check, b) := by
      unfold entityKey
      rw [hpk o ho, hrk]
    rw [hko, hkey] at hbeq
    simp at hbeq
  · intro e he hno
    unfold StorageService.delete_entities_batch
    rw [List.mem_filter]
    refine ⟨he, ?_⟩
    rw [Bool.not_eq_true', List.any_eq_false]
    intro o ho
    simp [hno o ho]

/-- C5 witness: the worklist barcode B1 is drained while the run-time staging
entry for B2 survives. -/
theorem finalization_drains_worklist_witness :
    entityKey drainKeptEntity ≠ some ("SCFNoRowTray", "B1") ∧
    drainKeptEntity ∈
      StorageService.delete_entities_batch [drainStagedEntity, drainKeptEntity]
        [drainOriginalEntity] := by
  have h := finalization_drains_worklist [drainStagedEntity, drainKeptEntity]
    [drainOriginalEntity] "SCFNoRowTray" (by decide)
  refine ⟨?_, ?_⟩
  · exact h.1 "B1" ⟨drainOriginalEntity, by decide, by decide⟩ drainKeptEntity (by decide)
  · exact h.2 drainKeptEntity (by decide) (by decide)

theorem TableStorage.getTable_setTable (s : TableStorage) (n : String) (t : List TableEntity) :
    (s.setTable n t).getTable n = some t := by
  unfold TableStorage.getTable TableStorage.setTable
  simp

/-- C9: upserting two entities with the same (PartitionKey, RowKey) key into
the same table leaves exactly one entity with that key in the table, namely
the second one: the second write replaces the first. -/
theorem upsert_entity_idempotent (storage : TableStorage) (name p r : String)
    (e1 e2 : TableEntity) (hname : name ≠ "")
    (h1 : entityKey e1 = some (p, r)) (h2 : entityKey e2 = some (p, r)) :
    ∃ s1 s2, StorageService.upsert_entity storage name e1 = Except.ok s1 ∧
      StorageService.upsert_entity s1 name e2 = Except.ok s2 ∧
      List.filter (fun x => entityKey x == some (p, r)) ((s2.getTable name).getD []) = [e2] := by
  unfold StorageService.upsert_entity
  simp only [if_neg hname, h1, h2]
  refine ⟨_, _, rfl, rfl, ?_⟩
  rw [TableStorage.getTable_setTable]
  simp only [Option.getD_some]
  unfold tableUpsertReplace
  rw [TableStorage.getTable_setTable]
  simp only [Option.getD_some]
  rw [List.filter_cons_of_pos (by simp [h2])]
  rw [List.filter_filter]
  have hfun : (fun x => (entityKey x == some (p, r)) && !(entityKey x == some (p, r))) =
      (fun _ : TableEntity => false) := by
    funext x
    simp
  rw [hfun, List.filter_false]

/-- C9 witness: two concrete staging writes for the same barcode key. -/
theorem upsert_entity_idempotent_witness :
    ∃ s1 s2,
      StorageService.upsert_entity ⟨[]⟩ "SCFNoRowTray" upsertFirstEntity = Except.ok s1 ∧
      StorageService.upsert_entity s1 "SCFNoRowTray" upsertSecondEntity = Except.ok s2 ∧
      List.filter (fun x => entityKey x == some ("SCFNoRowTray", "B1"))
        ((s2.getTable "SCFNoRowTray").getD []) = [upsertSecondEntity] :=
  upsert_entity_idempotent ⟨[]⟩ "SCFNoRowTray" "SCFNoRowTray" "B1"
    upsertFirstEntity upsertSecondEntity (by decide) (by decide) (by decide)

/-- C7: for a POST request outside development mode, a non-matching signature
yields 403; with a valid signature, a malformed JSON body yields 400; with a
valid signature and a parsed body carrying a barcode, the acknowledgement is
200 whatever the check configuration and upstream fetch behaviour did
downstream. -/
theorem scf_webhook_ack_semantics (env : WebhookEnv) (req : WebhookRequest)
    (check : Option Check) (fetch : Nat → FetchResult)
    (hdev : env.is_local_dev = false) (hpost : req.method = "POST") :
    (validate_webhook_signature env req.body req.signatureHeader = false →
       (ScfWebhook env req check fetch).1.status = 403) ∧
    (validate_webhook_signature env req.body req.signatureHeader = true →
       req.parse = ParseOutcome.invalidJson →
       (ScfWebhook env req check fetch).1.status = 400) ∧
    (∀ barcode, validate_webhook_signature env req.body req.signatureHeader = true →
       req.parse = ParseOutcome.parsed (some barcode) → barcode ≠ "" →
       (ScfWebhook env req check fetch).1.status = 200) := by
  refine ⟨?_, ?_, ?_⟩
  · intro hsig
    simp [ScfWebhook, hpost, hdev, hsig]
  · intro hsig hparse
    simp [ScfWebhook, hpost, hdev, hsig, hparse]
  · intro barcode hsig hparse hbc
    rcases hsp : SCFShared.should_process check fetch with _ | item <;>
      simp [ScfWebhook, hpost, hdev, hsig, hparse, hbc, hsp]

/-- C7 witness: a correctly signed request with a barcode is acknowledged 200
even though the upstream fetch fails throughout. -/
theorem scf_webhook_ack_semantics_witness :
    (ScfWebhook prodWebhookEnv okWebhookRequest none
        (fun _ => FetchResult.networkError)).1.status = 200 :=
  (scf_webhook_ack_semantics prodWebhookEnv okWebhookRequest none
      (fun _ => FetchResult.networkError) rfl rfl).2.2
    "31197000111111" (by decide) rfl (by decide)

/-- C10: when the environment is local development, signature validation is
skipped entirely: the response and effects do not depend on the signature
header at all, and no request is rejected with 403. -/
theorem scf_webhook_dev_skips_signature (env : WebhookEnv) (req : WebhookRequest)
    (check : Option Check) (fetch : Nat → FetchResult)
    (hdev : env.is_local_dev = true) :
    (∀ h, ScfWebhook env { req with signatureHeader := h } check fetch =
          ScfWebhook env { req with signatureHeader := none } check fetch) ∧
    (ScfWebhook env req check fetch).1.status ≠ 403 := by
  constructor
  · intro hd
    unfold ScfWebhook
    simp only [hdev, Bool.not_true, Bool.false_and, Bool.false_eq_true, if_false]
  · by_cases hm : req.method = "POST"
    · rcases hp : req.parse with b | _ | _
      · rcases b with _ | barcode
        · simp [ScfWebhook, hm, hdev, hp]
        · by_cases hbc : barcode = ""
          · simp [ScfWebhook, hm, hdev, hp, hbc]
          · rcases hsp : SCFShared.should_process check fetch with _ | item <;>
              simp [ScfWebhook, hm, hdev, hp, hbc, hsp]
      · simp [ScfWebhook, hm, hdev, hp]
      · simp [ScfWebhook, hm, hdev, hp]
    · rcases hc : req.challengeParam with _ | c <;> simp [ScfWebhook, hm, hc]

/-- C10 witness: in development mode a request without any signature header is
not rejected with an authentication failure. -/
theorem scf_webhook_dev_skips_signature_witness :
    (ScfWebhook devWebhookEnv
        { okWebhookRequest with signatureHeader := none } none
        (fun _ => FetchResult.networkError)).1.status ≠ 403 :=
  (scf_webhook_dev_skips_signature devWebhookEnv
      { okWebhookRequest with signatureHeader := none } none
      (fun _ => FetchResult.networkError) rfl).2
